import Mathlib

/-!
Verification of the core of `progression/progress.py` (cimatosa/progression)
against its natural-language specification.

Shallow embedding conventions:
* Python floats (counter values, wall-clock times, speeds) are rationals `ℚ`.
* Shared-memory cells (`mp.Value`) are fields of explicit state records; a
  write by the caller between two calls is an explicit field update.
* `math.ceil` (Python 3: returns `int`) is `Int.ceil : ℚ → ℤ`.
* The FIFO `multiprocessing.Queue` is a `List` whose head is the oldest
  element: `q.put(x)` appends, `q.get()` removes the head, `q.qsize()` is the
  length.
* Fallible code returns `Except`/an explicit outcome inductive.
-/

namespace Progression

/-- State of one progress series, as laid out in `Progress.__init__`
(progress.py lines 560-588): the shared counter `count[i]`, the caches
`last_count[i]` and `last_speed[i]`, the shared `start_time[i]`, and the
history queue `q[i]` of `(count, timestamp)` samples. -/
structure Series where
  count : ℚ
  lastCount : ℚ
  lastSpeed : ℚ
  startTime : ℚ
  q : List (ℚ × ℚ)
deriving DecidableEq

/-- Tuple returned by `Progress._calc` (progress.py line 684):
`(count_value, max_count_value, speed, tet, ttg)`. -/
structure CalcOut where
  count_value : ℚ
  max_count_value : Option ℚ
  speed : ℚ
  tet : ℚ
  ttg : Option ℤ
deriving DecidableEq

/-- Embedding of `Progress._calc` (progress.py lines 625-684).  Reads
`count.value` and the clock; if the value differs from `last_count.value` it
pushes `(count_value, current_time)` onto the queue, pops the oldest entry as
baseline when `q.qsize() > speed_calc_cycles` (otherwise the baseline is
`(0, start_time.value)`), computes `speed = (count - old_count)/(now - old_time)`
and updates `last_count` and `last_speed`; otherwise it reuses the cached
`last_speed`.  Then `tet = now - start_time` and
`ttg = math.ceil((max - count)/speed)` unless `speed == 0`, `max_count is None`
or `max_count.value == 0`, in which case `ttg = None`. -/
def Progress._calc (current_time : ℚ) (max_count : Option ℚ)
    (speed_calc_cycles : ℕ) (s : Series) : Series × CalcOut :=
  let count_value := s.count
  let start_time_value := s.startTime
  let step : Series × ℚ :=
    if s.lastCount ≠ count_value then
      -- some progress happened: q.put((count_value, current_time)); then use
      -- the oldest entry as baseline if q.qsize() > speed_calc_cycles
      let q1 := s.q ++ [(count_value, current_time)]
      let old : (ℚ × ℚ) × List (ℚ × ℚ) :=
        if speed_calc_cycles < q1.length then (q1.headD (0, start_time_value), q1.tail)
        else ((0, start_time_value), q1)
      let speed := (count_value - old.1.1) / (current_time - old.1.2)
      ({ s with q := old.2, lastCount := count_value, lastSpeed := speed }, speed)
    else
      -- progress has not changed since last call: reuse cached last_speed
      (s, s.lastSpeed)
  let speed := step.2
  let tet := current_time - start_time_value
  let ttg : Option ℤ :=
    if speed = 0 ∨ max_count = Option.none ∨ max_count = Option.some 0 then Option.none
    else Option.map (fun m => Int.ceil ((m - count_value) / speed)) max_count
  (step.1, ⟨count_value, max_count, speed, tet, ttg⟩)

/-- Embedding of `Progress._reset_i` (progress.py lines 693-704): zero the
shared counter, drain the history queue, set `start_time` to now.  Note that
`last_count` and `last_speed` are NOT touched. -/
def Progress._reset_i (now : ℚ) (s : Series) : Series :=
  { s with count := 0, q := [], startTime := now }

/-- Embedding of `Progress._reset_all` (progress.py lines 686-691). -/
def Progress._reset_all (now : ℚ) (l : List Series) : List Series :=
  l.map (Progress._reset_i now)

/-- Embedding of `Progress.reset` (progress.py lines 727-737): `i = None`
resets all series, otherwise only series `i`. -/
def Progress.reset (i : Option ℕ) (now : ℚ) (l : List Series) : List Series :=
  match i with
  | Option.none => Progress._reset_all now l
  | Option.some j =>
    match l[j]? with
    | Option.some s => l.set j (Progress._reset_i now s)
    | Option.none => l

/-- Series state as initialized by `Progress.__init__` (progress.py lines
565-576): empty queue, `last_count = UnsignedIntValue() = 0`,
`last_speed = FloatValue() = 0`, `start_time = time.time()`, and the caller's
shared counter holding `c`. -/
def freshSeries (now c : ℚ) : Series :=
  { count := c, lastCount := 0, lastSpeed := 0, startTime := now, q := [] }

/-- Helper: the `(count_value, max_count_value, speed, tet, ttg)` output of
`_calc` is determined by its own `speed` field via the source's `ttg`
formula. -/
theorem _calc_snd (t : ℚ) (m : Option ℚ) (cy : ℕ) (s : Series) :
    (Progress._calc t m cy s).2 =
      { count_value := s.count
        max_count_value := m
        speed := (Progress._calc t m cy s).2.speed
        tet := t - s.startTime
        ttg :=
          if (Progress._calc t m cy s).2.speed = 0 ∨ m = Option.none ∨ m = Option.some 0
          then Option.none
          else Option.map (fun x => Int.ceil ((x - s.count) / (Progress._calc t m cy s).2.speed)) m } :=
  rfl

/-- Helper: the cached branch of `_calc`, taken when the counter did not move
since the previous call. -/
theorem _calc_cached (t : ℚ) (m : Option ℚ) (cy : ℕ) (s : Series)
    (h : s.lastCount = s.count) :
    Progress._calc t m cy s =
      (s, { count_value := s.count
            max_count_value := m
            speed := s.lastSpeed
            tet := t - s.startTime
            ttg :=
              if s.lastSpeed = 0 ∨ m = Option.none ∨ m = Option.some 0 then Option.none
              else Option.map (fun x => Int.ceil ((x - s.count) / s.lastSpeed)) m }) := by
  simp only [Progress._calc, h, ne_eq, not_true_eq_false, if_false, ite_false]

/-- Helper: `_calc` never writes the shared counter itself. -/
theorem _calc_count (t : ℚ) (m : Option ℚ) (cy : ℕ) (s : Series) :
    ((Progress._calc t m cy s).1).count = s.count := by
  by_cases h : s.lastCount = s.count
  · rw [_calc_cached t m cy s h]
  · simp only [Progress._calc, h, ne_eq, not_false_iff, if_true, ite_true]

/-- Helper: after any `_calc` call, `last_count` equals the counter value that
was just read (in the cached branch it was already equal). -/
theorem _calc_lastCount (t : ℚ) (m : Option ℚ) (cy : ℕ) (s : Series) :
    ((Progress._calc t m cy s).1).lastCount = s.count := by
  by_cases h : s.lastCount = s.count
  · rw [_calc_cached t m cy s h]; exact h
  · simp only [Progress._calc, h, ne_eq, not_false_iff, if_true, ite_true]

/-- Helper: after any `_calc` call, the stored `last_speed` is exactly the
speed that was returned. -/
theorem _calc_lastSpeed (t : ℚ) (m : Option ℚ) (cy : ℕ) (s : Series) :
    ((Progress._calc t m cy s).1).lastSpeed = (Progress._calc t m cy s).2.speed := by
  by_cases h : s.lastCount = s.count
  · rw [_calc_cached t m cy s h]
  · simp only [Progress._calc, h, ne_eq, not_false_iff, if_true, ite_true]

/-- Helper: case analysis of the ttg formula used in `_calc`. -/
theorem ttg_formula_none_iff (sp cv : ℚ) (m : Option ℚ) :
    ((if sp = 0 ∨ m = Option.none ∨ m = Option.some 0 then (Option.none : Option ℤ)
      else Option.map (fun x => Int.ceil ((x - cv) / sp)) m) = Option.none) ↔
      (m = Option.none ∨ m = Option.some 0 ∨ sp = 0) := by
  rcases m with _ | mv
  · simp
  · by_cases h : sp = 0 <;> by_cases h2 : mv = 0 <;> simp [h, h2]

/-- C2: for every input to `Progress._calc`, the returned `ttg` is `None`
exactly when `max_count` is `None`, or `max_count` equals `0`, or the computed
speed equals `0`; in every other case `ttg = ceil((max_count - count)/speed)`
(so an overshoot `count > max_count` simply yields a negative `ttg`). -/
theorem c2_ttg_none_iff (t : ℚ) (m : Option ℚ) (cy : ℕ) (s : Progression.Series) :
    ((Progression.Progress._calc t m cy s).2.ttg = Option.none ↔
      (m = Option.none ∨ m = Option.some 0 ∨ (Progression.Progress._calc t m cy s).2.speed = 0)) ∧
    (∀ mv : ℚ, m = Option.some mv → mv ≠ 0 →
      (Progression.Progress._calc t m cy s).2.speed ≠ 0 →
      (Progression.Progress._calc t m cy s).2.ttg =
        Option.some (Int.ceil ((mv - s.count) / (Progression.Progress._calc t m cy s).2.speed))) := by
  constructor
  · rw [Progression._calc_snd t m cy s]
    exact Progression.ttg_formula_none_iff _ s.count m
  · intro mv hm hmv hsp
    subst hm
    rw [Progression._calc_snd t (Option.some mv) cy s]
    rw [if_neg (by push_neg; exact ⟨hsp, by simp, by simp [hmv]⟩)]
    simp

/-- Witness for C2 at the spec's concrete instance: with `count = 5`,
`max_count = 10` and a (cached) speed of 5 counts per second,
`ttg = ceil((10-5)/5) = 1`; with an overshoot `count = 15` the result is the
negative value `ceil((10-15)/5) = -1`. -/
theorem c2_ttg_none_iff_witness :
    ((Option.some (10 : ℚ)) = Option.some (10 : ℚ) ∧ (10 : ℚ) ≠ 0 ∧
      (Progression.Progress._calc 1 (Option.some 10) 10 ⟨5, 5, 5, 0, []⟩).2.speed ≠ 0 ∧
      (Progression.Progress._calc 1 (Option.some 10) 10 ⟨5, 5, 5, 0, []⟩).2.ttg =
        Option.some 1) ∧
    (Progression.Progress._calc 1 (Option.some 10) 10 ⟨15, 15, 5, 0, []⟩).2.ttg =
      Option.some (-1) := by
  have hsp : (Progression.Progress._calc 1 (Option.some (10:ℚ)) 10
      (⟨5, 5, 5, 0, []⟩ : Progression.Series)).2.speed = 5 := by
    rw [Progression._calc_cached 1 (Option.some 10) 10 ⟨5, 5, 5, 0, []⟩ rfl]
  have h1 := (c2_ttg_none_iff 1 (Option.some 10) 10 ⟨5, 5, 5, 0, []⟩).2 10 rfl
    (by norm_num) (by rw [hsp]; norm_num)
  have hsp2 : (Progression.Progress._calc 1 (Option.some (10:ℚ)) 10
      (⟨15, 15, 5, 0, []⟩ : Progression.Series)).2.speed = 5 := by
    rw [Progression._calc_cached 1 (Option.some 10) 10 ⟨15, 15, 5, 0, []⟩ rfl]
  have h2 := (c2_ttg_none_iff 1 (Option.some 10) 10 ⟨15, 15, 5, 0, []⟩).2 10 rfl
    (by norm_num) (by rw [hsp2]; norm_num)
  rw [hsp] at h1
  rw [hsp2] at h2
  refine ⟨⟨rfl, by norm_num, by rw [hsp]; norm_num, ?_⟩, ?_⟩
  · rw [h1]
    norm_num
  · rw [h2]
    norm_num
    norm_cast

/-- C3: if the counter value does not change between two consecutive `_calc`
invocations, the second invocation returns exactly the previous call's speed,
leaves the history queue untouched and does not update `last_count`.  The
counter value is a field of the state, and no write to it happens between the
two calls, which is precisely the claim's hypothesis. -/
theorem c3_speed_cache (t1 t2 : ℚ) (m1 m2 : Option ℚ) (cy : ℕ) (s : Progression.Series) :
    (Progression.Progress._calc t2 m2 cy (Progression.Progress._calc t1 m1 cy s).1).2.speed =
      (Progression.Progress._calc t1 m1 cy s).2.speed ∧
    (Progression.Progress._calc t2 m2 cy (Progression.Progress._calc t1 m1 cy s).1).1.q =
      (Progression.Progress._calc t1 m1 cy s).1.q ∧
    (Progression.Progress._calc t2 m2 cy (Progression.Progress._calc t1 m1 cy s).1).1.lastCount =
      (Progression.Progress._calc t1 m1 cy s).1.lastCount := by
  have hc : ((Progression.Progress._calc t1 m1 cy s).1).lastCount =
      ((Progression.Progress._calc t1 m1 cy s).1).count := by
    rw [Progression._calc_lastCount, Progression._calc_count]
  rw [Progression._calc_cached t2 m2 cy _ hc]
  exact ⟨Progression._calc_lastSpeed t1 m1 cy s, rfl, rfl⟩

/-- Helper: in the progressing branch, when the pushed queue exceeds the
window, the stored queue is the pushed queue minus its oldest entry. -/
theorem _calc_progress_pop (t : ℚ) (m : Option ℚ) (cy : ℕ) (s : Series)
    (h : s.lastCount ≠ s.count) (hlen : cy < (s.q ++ [(s.count, t)]).length) :
    ((Progress._calc t m cy s).1).q = (s.q ++ [(s.count, t)]).tail := by
  simp only [Progress._calc, h, ne_eq, not_false_eq_true, ite_true, hlen, if_true]

/-- Helper: in the progressing branch, when the pushed queue stays within the
window, nothing is popped. -/
theorem _calc_progress_nopop (t : ℚ) (m : Option ℚ) (cy : ℕ) (s : Series)
    (h : s.lastCount ≠ s.count) (hlen : ¬ cy < (s.q ++ [(s.count, t)]).length) :
    ((Progress._calc t m cy s).1).q = s.q ++ [(s.count, t)] := by
  simp only [Progress._calc, h, ne_eq, not_false_eq_true, ite_true, hlen, if_false, ite_false]

/-- Helper: the progressing branch when the queue stays within the window: the
baseline is the initial state `(0, start_time)`. -/
theorem _calc_progress_nofull (t : ℚ) (m : Option ℚ) (cy : ℕ) (s : Series)
    (h : s.lastCount ≠ s.count) (hlen : ¬ cy < (s.q ++ [(s.count, t)]).length) :
    Progress._calc t m cy s =
      ({ s with
          q := s.q ++ [(s.count, t)]
          lastCount := s.count
          lastSpeed := (s.count - 0) / (t - s.startTime) },
       ⟨s.count, m, (s.count - 0) / (t - s.startTime), t - s.startTime,
        if (s.count - 0) / (t - s.startTime) = 0 ∨ m = Option.none ∨ m = Option.some 0
        then Option.none
        else Option.map
          (fun x => Int.ceil ((x - s.count) / ((s.count - 0) / (t - s.startTime)))) m⟩) := by
  simp only [Progress._calc, h, ne_eq, not_false_eq_true, ite_true, hlen, if_false, ite_false]

/-- Helper: the progressing branch once the window is full: the oldest queue
entry is popped and used as the baseline of the speed computation. -/
theorem _calc_progress_full (t : ℚ) (m : Option ℚ) (cy : ℕ) (s : Series)
    (o : ℚ × ℚ) (rest : List (ℚ × ℚ))
    (h : s.lastCount ≠ s.count) (hq : s.q = o :: rest)
    (hlen : cy < (s.q ++ [(s.count, t)]).length) :
    Progress._calc t m cy s =
      ({ s with
          q := rest ++ [(s.count, t)]
          lastCount := s.count
          lastSpeed := (s.count - o.1) / (t - o.2) },
       ⟨s.count, m, (s.count - o.1) / (t - o.2), t - s.startTime,
        if (s.count - o.1) / (t - o.2) = 0 ∨ m = Option.none ∨ m = Option.some 0
        then Option.none
        else Option.map
          (fun x => Int.ceil ((x - s.count) / ((s.count - o.1) / (t - o.2)))) m⟩) := by
  have hlen3 : cy < (o :: (rest ++ [(s.count, t)])).length := by
    rw [hq] at hlen
    simpa [List.cons_append] using hlen
  simp only [Progress._calc, h, ne_eq, not_false_eq_true, ite_true, hq, List.cons_append,
    hlen3, if_true, List.headD_cons, List.tail_cons]

/-- C4: a `_calc` step preserves the bound `q.qsize() ≤ speed_calc_cycles`
(so after any number of progressing ticks, in particular more than
`speed_calc_cycles` of them, the history queue retains at most
`speed_calc_cycles` entries), and once the window is full the oldest entry is
the one evicted and used as the baseline `(old_count_value, old_time)` of the
speed computation. -/
theorem c4_window_bound (t : ℚ) (m : Option ℚ) (cy : ℕ) (s : Progression.Series)
    (hlen : s.q.length ≤ cy) :
    ((Progression.Progress._calc t m cy s).1.q.length ≤ cy) ∧
    (∀ o : ℚ × ℚ, ∀ rest : List (ℚ × ℚ), s.q = o :: rest → s.q.length = cy →
      s.lastCount ≠ s.count →
      (Progression.Progress._calc t m cy s).1.q = rest ++ [(s.count, t)] ∧
      (Progression.Progress._calc t m cy s).2.speed = (s.count - o.1) / (t - o.2)) := by
  constructor
  · by_cases h : s.lastCount = s.count
    · rw [Progression._calc_cached t m cy s h]
      exact hlen
    · by_cases h2 : cy < (s.q ++ [(s.count, t)]).length
      · rw [Progression._calc_progress_pop t m cy s h h2, List.length_tail]
        simp only [List.length_append, List.length_cons, List.length_nil]
        omega
      · rw [Progression._calc_progress_nopop t m cy s h h2]
        simp only [List.length_append, List.length_cons, List.length_nil] at h2 ⊢
        omega
  · intro o rest hq hfull hne
    have hlt : cy < (s.q ++ [(s.count, t)]).length := by
      simp only [List.length_append, List.length_cons, List.length_nil]
      omega
    rw [Progression._calc_progress_full t m cy s o rest hne hq hlt]
    exact ⟨rfl, rfl⟩

/-- Witness for C4: a window of size 2 that is already full; the tick evicts
the oldest sample `(1, 1)`, keeps the queue at 2 entries and uses `(1, 1)` as
the speed baseline: `speed = (3 - 1)/(3 - 1) = 1`. -/
theorem c4_window_bound_witness :
    (([((1 : ℚ), (1 : ℚ)), (2, 2)] : List (ℚ × ℚ)).length ≤ 2 ∧
      ([((1 : ℚ), (1 : ℚ)), (2, 2)] : List (ℚ × ℚ)) = (1, 1) :: [(2, 2)] ∧
      ((2 : ℚ) ≠ 3)) ∧
    (Progression.Progress._calc 3 Option.none 2 ⟨3, 2, 0, 0, [(1, 1), (2, 2)]⟩).1.q =
      [(2, 2)] ++ [(3, 3)] ∧
    (Progression.Progress._calc 3 Option.none 2 ⟨3, 2, 0, 0, [(1, 1), (2, 2)]⟩).2.speed =
      ((3 : ℚ) - 1) / (3 - 1) := by
  refine ⟨⟨by norm_num, rfl, by norm_num⟩, ?_⟩
  exact (c4_window_bound 3 Option.none 2 ⟨3, 2, 0, 0, [(1, 1), (2, 2)]⟩ (by norm_num)).2
    (1, 1) [(2, 2)] rfl rfl (by norm_num)

/-- Counterexample for C8: `_reset_i` does not clear `last_count` or
`last_speed`.  Take a series whose pre-reset state is
`count = 3, last_count = 3, last_speed = 7`; reset it at time 10, then let the
caller increment the counter back to 3 before the next `_calc` tick (at time
11).  Because the counter equals the stale `last_count`, `_calc` takes the
cached branch and returns the pre-reset speed 7, whereas a fresh series with
the same counter value and start time would compute the baseline
`(0, new start_time)` speed `(3 - 0)/(11 - 10) = 3`.  So the next `_calc` after
a reset does not always behave as for a fresh series. -/
theorem c8_counterexample :
    (Progression.Progress._calc 11 Option.none 10
        { Progression.Progress._reset_i 10 ⟨3, 3, 7, 0, [(3, 1)]⟩ with count := 3 }).2.speed = 7 ∧
    (Progression.Progress._calc 11 Option.none 10 (Progression.freshSeries 10 3)).2.speed = 3 ∧
    (7 : ℚ) ≠ 3 := by
  refine ⟨?_, ?_, by norm_num⟩
  · rw [Progression._calc_cached 11 Option.none 10 _ rfl]
    rfl
  · rw [Progression._calc_progress_nofull 11 Option.none 10 (Progression.freshSeries 10 3)
      (by simp only [Progression.freshSeries]; norm_num)
      (by simp only [Progression.freshSeries, List.nil_append, List.length_cons,
            List.length_nil]; omega)]
    show ((3 : ℚ) - 0) / (11 - 10) = 3
    norm_num

/-- C8 (amended): `reset(i)` resets exactly series `i` via `_reset_i`; after
`_reset_i` the counter reads 0, the history queue is empty and `start_time`
equals the reset time; and the next `_calc` invocation uses the fresh baseline
`(0, new start_time)` for its speed estimate PROVIDED the counter value it
reads differs from the surviving pre-reset `last_count` (with
`speed_calc_cycles ≥ 1`).  `last_count` and `last_speed` are not cleared by
`_reset_i`, so if the counter is incremented back to the old `last_count`
before the next tick, the stale cached speed is returned instead
(see the counterexample). -/
theorem c8_reset_amended (s : Progression.Series) (l : List Progression.Series) (i : ℕ)
    (now : ℚ) (hl : l[i]? = Option.some s) :
    Progression.Progress.reset (Option.some i) now l =
      l.set i (Progression.Progress._reset_i now s) ∧
    (Progression.Progress._reset_i now s).count = 0 ∧
    (Progression.Progress._reset_i now s).q = [] ∧
    (Progression.Progress._reset_i now s).startTime = now ∧
    (∀ c t : ℚ, ∀ m : Option ℚ, ∀ cy : ℕ, 1 ≤ cy → c ≠ s.lastCount →
      (Progression.Progress._calc t m cy
          { Progression.Progress._reset_i now s with count := c }).2.speed
        = (c - 0) / (t - now) ∧
      (Progression.Progress._calc t m cy
          { Progression.Progress._reset_i now s with count := c }).1.q = [(c, t)]) := by
  refine ⟨?_, rfl, rfl, rfl, ?_⟩
  · simp only [Progression.Progress.reset, hl]
  · intro c t m cy hcy hc
    have hne : ({ Progression.Progress._reset_i now s with count := c } :
        Progression.Series).lastCount ≠
        ({ Progression.Progress._reset_i now s with count := c } :
        Progression.Series).count := fun h => hc ((show s.lastCount = c from h).symm)
    have hlen : ¬ cy <
        (({ Progression.Progress._reset_i now s with count := c } :
          Progression.Series).q ++
         [(({ Progression.Progress._reset_i now s with count := c } :
          Progression.Series).count, t)]).length := by
      show ¬ cy < (([] : List (ℚ × ℚ)) ++ [(c, t)]).length
      simp only [List.nil_append, List.length_cons, List.length_nil]
      omega
    rw [Progression._calc_progress_nofull t m cy _ hne hlen]
    exact ⟨rfl, rfl⟩

/-- Witness for C8 (amended): reset a one-series tracker at time 10 whose
pre-reset state was `count = last_count = 3, last_speed = 7`; increment the
counter to 5 (different from the stale `last_count = 3`); the tick at time 11
computes the fresh-baseline speed `(5 - 0)/(11 - 10)`. -/
theorem c8_reset_amended_witness :
    ([(⟨3, 3, 7, 0, [(3, 1)]⟩ : Progression.Series)][0]? =
        Option.some (⟨3, 3, 7, 0, [(3, 1)]⟩ : Progression.Series)) ∧
    ((1 : ℕ) ≤ 10 ∧ ((5 : ℚ) ≠ 3)) ∧
    (Progression.Progress._calc 11 Option.none 10
        { Progression.Progress._reset_i 10 ⟨3, 3, 7, 0, [(3, 1)]⟩ with count := 5 }).2.speed
      = ((5 : ℚ) - 0) / (11 - 10) := by
  refine ⟨rfl, ⟨by norm_num, by norm_num⟩, ?_⟩
  exact ((c8_reset_amended ⟨3, 3, 7, 0, [(3, 1)]⟩ [⟨3, 3, 7, 0, [(3, 1)]⟩] 0 10 rfl).2.2.2.2
    5 11 Option.none 10 (by norm_num) (by norm_num)).1

/-- Terminal reservation registry `TERMINAL_RESERVATION` (progress.py line
1707): a process-wide dictionary mapping an output stream (identified here by
a natural number) to the owning progress instance (also identified by a
natural number).  The dictionary is modelled as a partial map, which by
construction holds at most one owner per stream. -/
def Reservation : Type := ℕ → Option ℕ

/-- Embedding of `terminal_reserve` (progress.py lines 1509-1545): if the
stream is already registered, succeed exactly when the registered owner is the
calling instance; otherwise register the caller and succeed. -/
def terminal_reserve (progress_obj terminal_obj : ℕ) (R : Reservation) :
    Reservation × Bool :=
  match R terminal_obj with
  | Option.some po =>
    if po = progress_obj then (R, true) else (R, false)
  | Option.none =>
    (fun t => if t = terminal_obj then Option.some progress_obj else R t, true)

/-- Embedding of `terminal_unreserve` (progress.py lines 1548-1576): an
instance can only remove the entry for a stream it reserved itself; a call by
a non-owner (or on an unreserved stream) changes nothing. -/
def terminal_unreserve (progress_obj terminal_obj : ℕ) (R : Reservation) :
    Reservation :=
  match R terminal_obj with
  | Option.none => R
  | Option.some po =>
    if po = progress_obj then (fun t => if t = terminal_obj then Option.none else R t)
    else R

/-- State of one progress-bar instance as far as `Progress.start`/`stop` are
concerned: its identity, whether the display loop process was started, and the
`show_on_exit` flag (progress.py lines 593, 842-878). -/
structure BarState where
  id : ℕ
  loopRunning : Bool
  show_on_exit : Bool
deriving DecidableEq

/-- Embedding of `Progress.start` (progress.py lines 842-853) for the
progress-bar classes listed in `TERMINAL_PRINT_LOOP_CLASSES`: first try to
reserve the output stream; on failure log a warning and return WITHOUT
starting the loop or drawing anything; on success start the loop process and
set `show_on_exit`.  Returns (instance state, registry, whether the loop was
started). -/
def Progress.start (p : BarState) (terminal_obj : ℕ) (R : Reservation) :
    BarState × Reservation × Bool :=
  match terminal_reserve p.id terminal_obj R with
  | (R1, false) => (p, R1, false)
  | (R1, true) =>
    ({ p with loopRunning := true, show_on_exit := true }, R1, true)

/-- Embedding of `Progress.stop` (progress.py lines 855-878): stop the loop
process, then always release the terminal reservation held by this instance
(the final redraw performed when `show_on_exit` is set is out of scope). -/
def Progress.stop (p : BarState) (terminal_obj : ℕ) (R : Reservation) :
    BarState × Reservation :=
  ({ p with loopRunning := false, show_on_exit := false },
   terminal_unreserve p.id terminal_obj R)

/-- C7: with two progress-bar instances `A` and `B` aimed at the same output
stream and an initially empty registry: `A.start()` reserves the stream and
starts; `B.start()` then returns without starting the loop and leaves `A`
registered; `terminal_unreserve` called by the non-owner `B` leaves `A`'s
entry in place; `A.stop()` releases the reservation; after that `B.start()`
succeeds and registers `B`.  The registry maps each stream to at most one
owner by construction. -/
theorem c7_terminal_exclusivity (A B : Progression.BarState) (term : ℕ)
    (hAB : A.id ≠ B.id) (hB : B.loopRunning = false) :
    (((Progression.Progress.start A term (fun _ => Option.none)).2.2 = true) ∧
     ((Progression.Progress.start A term (fun _ => Option.none)).2.1 term =
        Option.some A.id)) ∧
    (((Progression.Progress.start B term
        (Progression.Progress.start A term (fun _ => Option.none)).2.1).2.2 = false) ∧
     ((Progression.Progress.start B term
        (Progression.Progress.start A term (fun _ => Option.none)).2.1).1 = B) ∧
     ((Progression.Progress.start B term
        (Progression.Progress.start A term (fun _ => Option.none)).2.1).1.loopRunning
        = false) ∧
     ((Progression.Progress.start B term
        (Progression.Progress.start A term (fun _ => Option.none)).2.1).2.1 term =
        Option.some A.id)) ∧
    ((Progression.terminal_unreserve B.id term
        (Progression.Progress.start A term (fun _ => Option.none)).2.1) term =
      Option.some A.id) ∧
    ((Progression.Progress.stop
        (Progression.Progress.start A term (fun _ => Option.none)).1 term
        (Progression.terminal_unreserve B.id term
          (Progression.Progress.start A term (fun _ => Option.none)).2.1)).2 term =
      Option.none) ∧
    (((Progression.Progress.start B term
        (Progression.Progress.stop
          (Progression.Progress.start A term (fun _ => Option.none)).1 term
          (Progression.terminal_unreserve B.id term
            (Progression.Progress.start A term (fun _ => Option.none)).2.1)).2).2.2
        = true) ∧
     ((Progression.Progress.start B term
        (Progression.Progress.stop
          (Progression.Progress.start A term (fun _ => Option.none)).1 term
          (Progression.terminal_unreserve B.id term
            (Progression.Progress.start A term (fun _ => Option.none)).2.1)).2).1.loopRunning
        = true) ∧
     ((Progression.Progress.start B term
        (Progression.Progress.stop
          (Progression.Progress.start A term (fun _ => Option.none)).1 term
          (Progression.terminal_unreserve B.id term
            (Progression.Progress.start A term (fun _ => Option.none)).2.1)).2).2.1 term
        = Option.some B.id)) := by
  have hBA : ¬ (A.id = B.id) := hAB
  simp [Progression.Progress.start, Progression.Progress.stop,
    Progression.terminal_reserve, Progression.terminal_unreserve, hBA, hB]

/-- Witness for C7 at concrete instances 0 and 1 sharing stream 0. -/
theorem c7_terminal_exclusivity_witness :
    ((Progression.BarState.mk 0 false false).id ≠ (Progression.BarState.mk 1 false false).id) ∧
    ((Progression.Progress.start (Progression.BarState.mk 1 false false) 0
        (Progression.Progress.start (Progression.BarState.mk 0 false false) 0
          (fun _ => Option.none)).2.1).2.2 = false) ∧
    ((Progression.Progress.start (Progression.BarState.mk 1 false false) 0
        (Progression.Progress.stop
          (Progression.Progress.start (Progression.BarState.mk 0 false false) 0
            (fun _ => Option.none)).1 0
          (Progression.terminal_unreserve (Progression.BarState.mk 1 false false).id 0
            (Progression.Progress.start (Progression.BarState.mk 0 false false) 0
              (fun _ => Option.none)).2.1)).2).2.2 = true) := by
  have h := c7_terminal_exclusivity (Progression.BarState.mk 0 false false)
    (Progression.BarState.mk 1 false false) 0 (by decide) rfl
  exact ⟨by decide, h.2.1.1, h.2.2.2.2.1⟩

/-- Observable actions of `Loop.start`.  The vocabulary also contains the
actions the specification claims (polling an alive flag, raising a startup
timeout error) so that their absence from the code's behavior is
expressible. -/
inductive StartAction
  | warnAlreadyRunning
  | setRunTrue
  | openPipe
  | startMonitorThread
  | spawnWorker
  | pollAliveFlag
  | raiseStartupTimeout
deriving DecidableEq

/-- Supervisor-side state of a `Loop` (progress.py lines 189-241): whether
`self._proc` is set and alive, and the shared `run` and `pause` flags. -/
structure LoopState where
  procSpawned : Bool
  procAlive : Bool
  run : Bool
  pause : Bool
deriving DecidableEq

/-- Embedding of `Loop.is_alive` (progress.py lines 405-409). -/
def Loop.is_alive (s : LoopState) : Bool := s.procSpawned && s.procAlive

/-- Embedding of `Loop.start` (progress.py lines 343-375).  If a process is
already alive it logs a warning and returns.  Otherwise it sets `run = True`,
opens the stdout relay pipe, starts the monitor thread and spawns the worker
process, and returns immediately: it takes no timeout argument, never polls
any alive flag and never raises a startup-timeout error. -/
def Loop.start (s : LoopState) : LoopState × List StartAction :=
  if Loop.is_alive s then
    (s, [StartAction.warnAlreadyRunning])
  else
    ({ s with run := true, procSpawned := true, procAlive := true },
     [StartAction.setRunTrue, StartAction.openPipe,
      StartAction.startMonitorThread, StartAction.spawnWorker])

/-- C5 (code evaluation at the failing input): starting a loop whose worker
never reports alive (there is no alive flag at all in the code) spawns the
worker and returns immediately; the action trace contains neither a poll of a
`workerAlive` flag nor a `StartupTimeoutError`, and a second `start` on an
alive loop is a warning no-op.  This contradicts the claim that
`start(timeout)` blocks polling `workerAlive` and fails with
`StartupTimeoutError` — the repository's own tests call
`loop.start(timeout=...)` and expect a timeout error, so the spec matches the
tests while this snapshot of the code does not. -/
theorem c5_start_no_timeout :
    Progression.Loop.start (Progression.LoopState.mk false false false false) =
      (Progression.LoopState.mk true true true false,
       [Progression.StartAction.setRunTrue, Progression.StartAction.openPipe,
        Progression.StartAction.startMonitorThread, Progression.StartAction.spawnWorker]) ∧
    Progression.StartAction.raiseStartupTimeout ∉
      (Progression.Loop.start (Progression.LoopState.mk false false false false)).2 ∧
    Progression.StartAction.pollAliveFlag ∉
      (Progression.Loop.start (Progression.LoopState.mk false false false false)).2 ∧
    Progression.Loop.start (Progression.LoopState.mk true true false false) =
      (Progression.LoopState.mk true true false false,
       [Progression.StartAction.warnAlreadyRunning]) := by
  refine ⟨rfl, ?_, ?_, rfl⟩ <;> decide

/-- Timed shutdown events of the supervisor. -/
inductive LEvent
  | sigterm
  | setRunFalse
  | sigkill
deriving DecidableEq

/-- Timed event trace of `check_process_termination` (progress.py lines
1234-1286) for the scenario of C1: the worker ignores cooperative cancellation
(it stays alive until a SIGKILL) and `auto_kill_on_last_resort = True`.
Control flow of the source under this scenario: `proc.join(timeout)` times out
at `t0 + timeout`; the process is still alive, so `proc.terminate()` sends
SIGTERM; `proc.join(3*timeout)` times out at `t0 + 4*timeout`; the process is
still alive, `answer = 'k'`, so SIGKILL is sent, after which the process is
dead and the function returns successfully. -/
def check_process_termination_trace (t0 timeout : ℚ) : List (ℚ × LEvent) :=
  [(t0 + timeout, LEvent.sigterm), (t0 + timeout + 3 * timeout, LEvent.sigkill)]

/-- Timed event trace of `Loop.stop` (progress.py lines 377-396) followed by
`Loop.__cleanup` (lines 254-283), for a worker that ignores cooperative
cancellation and `auto_kill_on_last_resort = True`, with `stop` called at time
0: `stop` first calls `self._proc.terminate()` immediately because the process
is alive; `__cleanup` then sets `run = False` and calls
`check_process_termination` with `timeout = 2*interval`. -/
def Loop.stop_trace (interval : ℚ) : List (ℚ × LEvent) :=
  (0, LEvent.sigterm) ::
  (0, LEvent.setRunFalse) ::
  check_process_termination_trace 0 (2 * interval)

/-- Counterexample for C1 at `interval = 1`: the claim requires every
cooperative terminate signal to be issued at least `2×interval` after `run`
is observed false, but `Loop.stop` sends a SIGTERM at time 0, before even
setting `run = False` (which also happens at time 0). -/
theorem c1_counterexample :
    ((0 : ℚ), Progression.LEvent.sigterm) ∈ Progression.Loop.stop_trace 1 ∧
    ((0 : ℚ), Progression.LEvent.setRunFalse) ∈ Progression.Loop.stop_trace 1 ∧
    ¬ (∀ p ∈ Progression.Loop.stop_trace 1, p.2 = Progression.LEvent.sigterm →
        (2 : ℚ) ≤ p.1) := by
  refine ⟨by simp [Progression.Loop.stop_trace], by simp [Progression.Loop.stop_trace], ?_⟩
  intro h
  have h0 := h ((0 : ℚ), Progression.LEvent.sigterm)
    (by simp [Progression.Loop.stop_trace]) rfl
  norm_num at h0

/-- C1 (amended): for a worker that ignores cooperative cancellation and
`auto_kill_on_last_resort = True`, the shutdown trace is: an immediate
cooperative SIGTERM sent by `stop()` itself (before `run = False` is set, NOT
after a `2×interval` wait as the claim states), then `run = False`, then the
escalation's SIGTERM after waiting `2×interval`, then a SIGKILL at
`8×interval` — so at least `6×interval` elapses in total before the kill, and
a cooperative terminate always precedes the kill, never the reverse. -/
theorem c1_escalation_amended (i : ℚ) (hi : 0 < i) :
    Progression.Loop.stop_trace i =
      [(0, Progression.LEvent.sigterm), (0, Progression.LEvent.setRunFalse),
       (2 * i, Progression.LEvent.sigterm), (8 * i, Progression.LEvent.sigkill)] ∧
    (∀ p ∈ Progression.Loop.stop_trace i, p.2 = Progression.LEvent.sigkill →
      6 * i ≤ p.1) ∧
    (∀ p ∈ Progression.Loop.stop_trace i, p.2 = Progression.LEvent.sigkill →
      ∃ q ∈ Progression.Loop.stop_trace i,
        q.2 = Progression.LEvent.sigterm ∧ q.1 ≤ p.1) := by
  have htr : Progression.Loop.stop_trace i =
      [(0, Progression.LEvent.sigterm), (0, Progression.LEvent.setRunFalse),
       (2 * i, Progression.LEvent.sigterm), (8 * i, Progression.LEvent.sigkill)] := by
    simp only [Progression.Loop.stop_trace, Progression.check_process_termination_trace]
    norm_num
    ring_nf
  refine ⟨htr, ?_, ?_⟩
  · intro p hp hk
    rw [htr] at hp
    simp only [List.mem_cons, List.not_mem_nil, or_false] at hp
    rcases hp with h | h | h | h <;> subst h <;> dsimp only at hk ⊢ <;>
      first
        | exact absurd hk (by decide)
        | nlinarith
  · intro p hp hk
    refine ⟨(0, Progression.LEvent.sigterm), by rw [htr]; simp, rfl, ?_⟩
    rw [htr] at hp
    simp only [List.mem_cons, List.not_mem_nil, or_false] at hp
    rcases hp with h | h | h | h <;> subst h <;> dsimp only at hk ⊢ <;>
      first
        | exact absurd hk (by decide)
        | nlinarith

/-- Witness for C1 (amended) at `interval = 1`. -/
theorem c1_escalation_amended_witness :
    (0 : ℚ) < 1 ∧
    Progression.Loop.stop_trace 1 =
      [(0, Progression.LEvent.sigterm), (0, Progression.LEvent.setRunFalse),
       (2 * 1, Progression.LEvent.sigterm), (8 * 1, Progression.LEvent.sigkill)] :=
  ⟨by norm_num, (c1_escalation_amended 1 (by norm_num)).1⟩

/-- Embedding of the kill-confirmation loop at the end of
`check_process_termination` (progress.py lines 1254-1286), for a worker that
ignores SIGTERM and dies only on SIGKILL.  `answer` is the current answer
variable (initialized to `'k'` when `auto_kill_on_last_resort` else `'_'`);
`answers` are the operator's successive replies to `input()`, the list running
out models `input()` raising (whereupon the source sets `answer = 'k'`
itself).  Returns `True` when the process is confirmed dead and `False` when
the operator entered `'ignore'`. -/
def kill_confirm (answer : String) (answers : List String) : Bool :=
  if answer = "k" then
    -- os.kill(SIGKILL); sleep(0.1); the process is no longer alive
    true
  else
    -- os.kill(SIGTERM); sleep(0.1); the worker ignored it and is still alive
    match answers with
    | [] =>
      -- input() raised -> answer = 'k' -> next iteration kills
      true
    | a :: rest =>
      if a = "ignore" then false
      else kill_confirm (if a = "k" then "k" else "") rest

/-- Result of `check_process_termination` (progress.py lines 1234-1286) for a
worker that ignores cooperative cancellation: both `join` calls time out and
the SIGTERMs are ignored, so the result is decided by the kill-confirmation
loop. -/
def check_process_termination (auto_kill_on_last_resort : Bool)
    (answers : List String) : Bool :=
  kill_confirm (if auto_kill_on_last_resort then "k" else "_") answers

/-- Outcome of `Loop.__cleanup` towards its caller. -/
inductive CleanupOutcome
  | cleaned
  | raisedRuntimeError
deriving DecidableEq

/-- Embedding of the result handling in `Loop.__cleanup` (progress.py lines
254-283): if `check_process_termination` returns `True` the cleanup proceeds,
otherwise the source executes `raise RuntimeError("cleanup FAILED!")`. -/
def Loop.cleanup (check_result : Bool) : CleanupOutcome :=
  if check_result then CleanupOutcome.cleaned else CleanupOutcome.raisedRuntimeError

/-- Counterexample for C6: with `auto_kill_on_last_resort = False` and an
operator that answers `'ignore'`, `check_process_termination` returns `False`
(reporting the failure), but `Loop.__cleanup` then RAISES `RuntimeError` to
the caller — contradicting the claim that the stop/cleanup call reports the
failure without raising an exception. -/
theorem c6_counterexample :
    Progression.check_process_termination false ["ignore"] = false ∧
    Progression.Loop.cleanup
        (Progression.check_process_termination false ["ignore"]) =
      Progression.CleanupOutcome.raisedRuntimeError := by
  constructor <;> rfl

/-- C6 (amended): when the escalation exhausts its steps and the operator
chooses to abandon without killing (answers `'ignore'`),
`check_process_termination` reports the failure via its return value `False`,
but `Loop.__cleanup` does not swallow it: it raises
`RuntimeError("cleanup FAILED!")` to the caller of `stop()`. -/
theorem c6_cleanup_amended (rest : List String) :
    Progression.check_process_termination false ("ignore" :: rest) = false ∧
    Progression.Loop.cleanup
        (Progression.check_process_termination false ("ignore" :: rest)) =
      Progression.CleanupOutcome.raisedRuntimeError := by
  constructor <;> rfl

/-- Configuration stored by `Loop.__init__`. -/
structure LoopConfig where
  sigint : String
  sigterm : String
  interval : ℚ
  auto_kill_on_last_resort : Bool
  raise_error : Bool
deriving DecidableEq

/-- Outcome of `Loop.__init__`. -/
inductive InitResult
  | ok (cfg : LoopConfig)
  | assertionError
deriving DecidableEq

/-- Embedding of `Loop.__init__` (progress.py lines 189-241): the signal
policy strings `sigint`/`sigterm` are stored WITHOUT any validation; the only
check performed at construction time is `assert self.interval >= 0`. -/
def Loop.init (sigint sigterm : String) (interval : ℚ)
    (auto_kill_on_last_resort raise_error : Bool) : InitResult :=
  if interval < 0 then InitResult.assertionError
  else InitResult.ok ⟨sigint, sigterm, interval, auto_kill_on_last_resort, raise_error⟩

/-- Signal disposition installed by the worker. -/
inductive SigAction
  | ignoreSignal
  | stopOnSignal
deriving DecidableEq

/-- Embedding of `SIG_handler_Loop.set_signal` (progress.py lines 1210-1216):
`'ign'` installs the ignoring handler, `'stop'` installs the handler that
raises `LoopInterruptError`, anything else raises `TypeError`.  This code runs
inside the spawned worker (`_wrapper_func` calls `SIG_handler_Loop(...)`),
not at construction time. -/
def SIG_handler_Loop.set_signal (handler_str : String) : Except String SigAction :=
  if handler_str = "ign" then Except.ok SigAction.ignoreSignal
  else if handler_str = "stop" then Except.ok SigAction.stopOnSignal
  else Except.error "unknown signal hander string"

/-- Embedding of `SIG_handler_Loop.__init__` (progress.py lines 1203-1208):
installs the SIGINT handler, then the SIGTERM handler. -/
def SIG_handler_Loop.init (sigint sigterm : String) :
    Except String (SigAction × SigAction) :=
  match SIG_handler_Loop.set_signal sigint with
  | Except.error e => Except.error e
  | Except.ok a =>
    match SIG_handler_Loop.set_signal sigterm with
    | Except.error e => Except.error e
    | Except.ok b => Except.ok (a, b)

/-- Counterexample for C9: constructing a `Loop` with the invalid signal
policy string `"foo"` does NOT fail — `Loop.__init__` stores the string
unvalidated and returns a constructed object. -/
theorem c9_counterexample :
    Progression.Loop.init "foo" "stop" 1 false true =
      Progression.InitResult.ok ⟨"foo", "stop", 1, false, true⟩ := by
  rfl

/-- C9 (amended): an invalid signal-policy string does not fail construction:
`Loop.__init__` succeeds and stores it (only the interval assert runs), the
worker is spawned regardless, and the `TypeError` is raised inside the
spawned worker when `SIG_handler_Loop.set_signal` runs during the wrapper's
signal setup, so the worker dies during startup instead. -/
theorem c9_policy_amended (hs st : String) (h1 : hs ≠ "ign") (h2 : hs ≠ "stop")
    (interval : ℚ) (hi : 0 ≤ interval) (a r : Bool) :
    Progression.Loop.init hs st interval a r =
      Progression.InitResult.ok ⟨hs, st, interval, a, r⟩ ∧
    Progression.SIG_handler_Loop.set_signal hs =
      Except.error "unknown signal hander string" ∧
    Progression.SIG_handler_Loop.init hs st =
      Except.error "unknown signal hander string" := by
  have hset : Progression.SIG_handler_Loop.set_signal hs =
      Except.error "unknown signal hander string" := by
    simp only [Progression.SIG_handler_Loop.set_signal, h1, h2, if_false, ite_false]
  refine ⟨?_, hset, ?_⟩
  · simp only [Progression.Loop.init, if_neg (not_lt.mpr hi)]
  · simp only [Progression.SIG_handler_Loop.init, hset]

/-- Witness for C9 (amended) at the concrete invalid string `"foo"`. -/
theorem c9_policy_amended_witness :
    ("foo" ≠ "ign" ∧ "foo" ≠ "stop" ∧ (0 : ℚ) ≤ 1) ∧
    Progression.Loop.init "foo" "stop" 1 false true =
      Progression.InitResult.ok ⟨"foo", "stop", 1, false, true⟩ ∧
    Progression.SIG_handler_Loop.init "foo" "stop" =
      Except.error "unknown signal hander string" := by
  have h := c9_policy_amended "foo" "stop" (by decide) (by decide) 1 (by norm_num)
    false true
  exact ⟨⟨by decide, by decide, by norm_num⟩, h.1, h.2.2⟩

/-- Value returned by the monitored Python function, as far as the stop
sentinel test is concerned.  Python's `quit_loop is True` is an identity test
with the boolean singleton `True`: it is false for any non-bool object, in
particular for the truthy values `1` and non-empty strings. -/
inductive PyVal
  | pybool (b : Bool)
  | pyint (n : ℤ)
  | pystr (s : String)
  | pynone
deriving DecidableEq

/-- Behavior of one `func(*args)` invocation inside the worker. -/
inductive FuncOutcome
  | ret (v : PyVal)
  | raisesLoopInterrupt
  | raisesOther
deriving DecidableEq

/-- Exit kind of the worker wrapper. -/
inductive WrapperExit
  | runFlagCleared
  | gracefulBreak
  | exitMinusOne
deriving DecidableEq

/-- Embedding of the unpaused main loop of `Loop._wrapper_func` (progress.py
lines 306-331): `outcomes` is the behavior of each successive `func(*args)`
call while `shared_mem_run.value` stays true; the list running out models the
run flag being observed false at the `while` head.  `LoopInterruptError`
breaks the loop via the outer handler; any other exception exits with status
-1; `quit_loop is True` breaks the loop; every other return value falls
through to `time.sleep(interval)` and the next iteration.  Returns the number
of `func` invocations and the exit kind. -/
def Loop._wrapper_func : List FuncOutcome → ℕ × WrapperExit
  | [] => (0, WrapperExit.runFlagCleared)
  | o :: rest =>
    match o with
    | FuncOutcome.raisesLoopInterrupt => (1, WrapperExit.gracefulBreak)
    | FuncOutcome.raisesOther => (1, WrapperExit.exitMinusOne)
    | FuncOutcome.ret v =>
      if v = PyVal.pybool true then (1, WrapperExit.gracefulBreak)
      else ((Loop._wrapper_func rest).1 + 1, (Loop._wrapper_func rest).2)

/-- C10: the worker's stop-sentinel path triggers only when `func(*args)`
returns the exact boolean `True`: for any other return value (truthy or not)
the worker sleeps and invokes `func` again on the next tick (one more
invocation than the rest of the run), returning `True` breaks immediately
after one invocation, and a single-invocation run breaks gracefully only if
the returned value was exactly `True`. -/
theorem c10_stop_sentinel (v : Progression.PyVal)
    (rest : List Progression.FuncOutcome)
    (h : v ≠ Progression.PyVal.pybool true) :
    Progression.Loop._wrapper_func (Progression.FuncOutcome.ret v :: rest) =
      ((Progression.Loop._wrapper_func rest).1 + 1,
       (Progression.Loop._wrapper_func rest).2) ∧
    Progression.Loop._wrapper_func
        (Progression.FuncOutcome.ret (Progression.PyVal.pybool true) :: rest) =
      (1, Progression.WrapperExit.gracefulBreak) ∧
    (∀ w : Progression.PyVal,
      (Progression.Loop._wrapper_func [Progression.FuncOutcome.ret w]).2 =
        Progression.WrapperExit.gracefulBreak →
      w = Progression.PyVal.pybool true) := by
  refine ⟨?_, rfl, ?_⟩
  · simp only [Progression.Loop._wrapper_func, h, if_false, ite_false]
  · intro w hw
    by_cases hwt : w = Progression.PyVal.pybool true
    · exact hwt
    · exfalso
      simp only [Progression.Loop._wrapper_func, hwt, if_false, ite_false] at hw
      exact absurd hw (by decide)

/-- Witness for C10: the truthy non-`True` values `1` and `"x"` do not stop
the loop (the worker calls `func` again), while `True` does. -/
theorem c10_stop_sentinel_witness :
    (Progression.PyVal.pyint 1 ≠ Progression.PyVal.pybool true) ∧
    Progression.Loop._wrapper_func
        [Progression.FuncOutcome.ret (Progression.PyVal.pyint 1),
         Progression.FuncOutcome.ret (Progression.PyVal.pybool true)] =
      (2, Progression.WrapperExit.gracefulBreak) ∧
    Progression.Loop._wrapper_func
        [Progression.FuncOutcome.ret (Progression.PyVal.pystr "x")] =
      (1, Progression.WrapperExit.runFlagCleared) := by
  refine ⟨by decide, ?_, ?_⟩
  · rw [(c10_stop_sentinel (Progression.PyVal.pyint 1)
      [Progression.FuncOutcome.ret (Progression.PyVal.pybool true)] (by decide)).1]
    rfl
  · rw [(c10_stop_sentinel (Progression.PyVal.pystr "x") [] (by decide)).1]
    rfl

end Progression
